import Mathlib

/-!
Verification of the Varada translate backend (`src/ai_wrapper.py`).

The program is a single Flask handler `translate` at `POST /api/translate`
plus a helper `run_assistant`.  We embed the handler shallowly: the remote
assistant round trip is abstracted as an oracle of type
`Except String String` (an exception's description, or the reply text that
`run_assistant` would return), and JSON payloads / responses are modelled
as association lists.
-/

namespace AiWrapper

/-- A JSON value appearing in one of the handler's responses: the handler
only ever emits booleans (`True`) and strings. -/
inductive JVal where
  | bool (b : Bool)
  | str (s : String)
deriving DecidableEq, Repr

/-- A JSON object emitted by `jsonify`: key/value pairs in insertion order. -/
abbrev Response := List (String × JVal)

/-- The parsed JSON request body, restricted to objects whose values are
strings (the shape the contract uses: `code` and optional `branch`).
Parsed JSON objects have unique keys, so association-list lookup of the
first occurrence matches Python `dict.get`. -/
abbrev Payload := List (String × String)

/-- The characters Python's `str.strip()` removes, i.e. those for which
`str.isspace()` holds: Unicode category Zs/Zl/Zp or bidirectional class
WS, B or S.  Concretely U+0009-U+000D, U+001C-U+001F, the space, U+0085,
U+00A0, U+1680, U+2000-U+200A, U+2028, U+2029, U+202F, U+205F and
U+3000. -/
def isPySpace (c : Char) : Bool :=
  (9 ≤ c.toNat && c.toNat ≤ 13) ||
  (28 ≤ c.toNat && c.toNat ≤ 32) ||
  c.toNat = 133 || c.toNat = 160 || c.toNat = 5760 ||
  (8192 ≤ c.toNat && c.toNat ≤ 8202) ||
  c.toNat = 8232 || c.toNat = 8233 ||
  c.toNat = 8239 || c.toNat = 8287 || c.toNat = 12288

/-- Python `str.upper()` on ASCII text: upper-case every character. -/
def pyUpper (s : String) : String :=
  ⟨s.data.map Char.toUpper⟩

/-- Python `str.strip()`: remove leading and trailing whitespace. -/
def pyStrip (s : String) : String :=
  ⟨((s.data.dropWhile isPySpace).reverse.dropWhile isPySpace).reverse⟩

/-- Python's substring test `needle in hay`. -/
def strContains (hay needle : String) : Bool :=
  hay.data.tails.any (fun t => needle.data.isPrefixOf t)

/-- The ASCII apostrophe, U+0027. -/
def apos : Char := Char.ofNat 39

/-- The right single quotation mark, U+2019, used by the source's
fallback phrase. -/
def rsquo : Char := Char.ofNat 8217

/-- The fallback phrase of `ai_wrapper.py` line 104.  The source file spells
it with the right single quotation mark U+2019, not an ASCII apostrophe:
its bytes are `We\xe2\x80\x99re still expanding our translator`. -/
def fallback_phrase : String :=
  "We" ++ String.mk [rsquo] ++ "re still expanding our translator"

/-- The same phrase spelled with an ASCII apostrophe U+0027, as written in
the specification text. -/
def asciiFallbackPhrase : String :=
  "We" ++ String.mk [apos] ++ "re still expanding our translator"

/-- `run_assistant` lines 84-87: after the remote run completes, the list
of messages of the thread is fetched; if it is empty the function returns
`""`, otherwise the text of the newest message.  The remote steps are
abstracted as the fetched list of message texts. -/
def run_assistant (messages : List String) : String :=
  match messages with
  | [] => ""
  | m :: _ => m

/-- The `code` value read from the payload: `payload.get('code', '')`
(line 94; `str(...)` is the identity on the string values our payload
model carries). -/
def codeOf (payload : Payload) : String :=
  (payload.lookup "code").getD ""

/-- The handler `translate` (lines 90-107), instrumented with a flag
recording whether the remote assistant was invoked.  The remote round trip
`run_assistant(code)` is abstracted by `oracle`:
`Except.error exc` models the call raising an exception whose `str` is
`exc`, and `Except.ok reply` models it returning `reply`.

Line by line: `code = str(payload.get('code','')).strip()`; empty code
returns `{"notFound": True}` without calling the remote; an exception
returns `{"notFound": True, "error": str(exc)}`; a reply containing the
fallback phrase returns `{"notFound": True}`; otherwise
`{"reply": ai_reply}`. -/
def translateT (payload : Payload) (oracle : Except String String) :
    Response × Bool :=
  let code := pyStrip (codeOf payload)
  if code = "" then
    ([("notFound", JVal.bool true)], false)
  else
    match oracle with
    | Except.error exc =>
        ([("notFound", JVal.bool true), ("error", JVal.str exc)], true)
    | Except.ok ai_reply =>
        if strContains ai_reply fallback_phrase then
          ([("notFound", JVal.bool true)], true)
        else
          ([("reply", JVal.str ai_reply)], true)

/-- The response of the handler `translate` (lines 90-107). -/
def translate (payload : Payload) (oracle : Except String String) :
    Response :=
  (translateT payload oracle).1

/-- The message content submitted to the remote assistant service:
`run_assistant` is called with the stripped code (line 98), which becomes
the sole message's `content` (line 76).  `none` when no remote call is
made. -/
def submittedMessage (payload : Payload) : Option String :=
  let code := pyStrip (codeOf payload)
  if code = "" then none else some code

/-- Whether a response object carries a given key. -/
def hasKey (r : Response) (k : String) : Bool :=
  (r.lookup k).isSome

/-- Outcome of one `POST /api/translate` exchange as seen on the wire:
either a 200 response with a JSON body, or a framework-produced error
status. -/
inductive HttpOutcome where
  | ok (body : Response)
  | clientError (status : Nat)
deriving DecidableEq, Repr

/-- The transport layer around the handler, modelling Flask's documented
behaviour for this route: `request.get_json(force=True)` (line 93) raises
`BadRequest` on a body that is not valid JSON, which Flask converts to a
400 response before the handler body runs; when the body parses to an
object the handler runs and its `jsonify(...)` return is sent with
status 200.  `none` models an unparseable body, `some p` a body parsing
to the object `p`. -/
def handlePost (body : Option Payload) (oracle : Except String String) :
    HttpOutcome :=
  match body with
  | none => HttpOutcome.clientError 400
  | some p => HttpOutcome.ok (translate p oracle)

/-- Modelled from the spec: the second implementation variant's
classification heuristic, whose source is not under `src/`.  Per spec
section 4.1, the reply is `NotFound` if it is empty, or contains the
case-insensitive substring "no match", or its trimmed length is below 40
characters; otherwise it is `Found{text: reply}`. -/
def classifyVariant2 (reply : String) : Response :=
  if reply = "" then [("notFound", JVal.bool true)]
  else if strContains reply.toLower "no match" then
    [("notFound", JVal.bool true)]
  else if (pyStrip reply).length < 40 then
    [("notFound", JVal.bool true)]
  else
    [("reply", JVal.str reply)]

/-- C1 counterexample: the claim's phrase is spelled with an ASCII
apostrophe, but the source's `fallback_phrase` (line 104) uses U+2019.
A reply containing exactly the ASCII-apostrophe phrase is therefore NOT
matched: translate returns the reply, not notFound. -/
theorem C1_counterexample :
    strContains (asciiFallbackPhrase ++ "...") asciiFallbackPhrase = true ∧
    translate [("code", "ZZZ")]
        (Except.ok (asciiFallbackPhrase ++ "...")) =
      [("reply", JVal.str (asciiFallbackPhrase ++ "..."))] ∧
    (translate [("code", "ZZZ")]
        (Except.ok (asciiFallbackPhrase ++ "..."))).lookup "notFound" =
      none := by
  refine ⟨by decide, by decide, by decide⟩

/-- C1 (amended): for every payload whose stripped code is non-empty, if
the reply contains the source's fallback phrase (spelled with the right
single quotation mark U+2019), translate returns exactly
the notFound response, with no reply key. -/
theorem C1_fallback_notFound (p : Payload) (reply : String)
    (hcode : pyStrip (codeOf p) ≠ "")
    (hfb : strContains reply fallback_phrase = true) :
    translate p (Except.ok reply) = [("notFound", JVal.bool true)] ∧
    (translate p (Except.ok reply)).lookup "reply" = none := by
  unfold translate translateT
  simp [hcode, hfb, List.lookup]

/-- C1 witness: the scenario with code ZZZ and a mocked reply beginning
with the (correctly spelled) fallback phrase. -/
theorem C1_witness :
    translate [("code", "ZZZ")] (Except.ok (fallback_phrase ++ "...")) =
      [("notFound", JVal.bool true)] ∧
    (translate [("code", "ZZZ")]
        (Except.ok (fallback_phrase ++ "..."))).lookup "reply" = none :=
  C1_fallback_notFound [("code", "ZZZ")] (fallback_phrase ++ "...")
    (by decide) (by decide)

/-- C2: whenever the payload's code is empty or whitespace-only after
stripping (a missing code reads as the empty string), the handler returns
the notFound response and the remote assistant is never invoked (the
instrumentation flag of translateT is false), for every oracle. -/
theorem C2_empty_code_no_remote (p : Payload)
    (o : Except String String) (h : pyStrip (codeOf p) = "") :
    translateT p o = ([("notFound", JVal.bool true)], false) := by
  unfold translateT
  simp [h]

/-- C2 witness: a code made of a space, a file separator U+001C and a
no-break space U+00A0, all of which str.strip() removes. -/
theorem C2_witness :
    translateT [("code", " \x1c\u00A0")] (Except.ok "x") =
      ([("notFound", JVal.bool true)], false) :=
  C2_empty_code_no_remote [("code", " \x1c\u00A0")] (Except.ok "x")
    (by decide)

/-- C3 counterexample: the code stores str(exc) in the error field, and
Python exceptions can stringify to the empty string (e.g. Exception()),
so the error field is not guaranteed to hold a NON-EMPTY description: at
an exception whose description is empty, the field holds the empty
string. -/
theorem C3_counterexample :
    (translate [("code", "A")] (Except.error "")).lookup "error" =
      some (JVal.str "") ∧
    ("" : String).length = 0 := by
  refine ⟨by decide, by decide⟩

/-- C3 (amended): for every payload with a non-empty stripped code, if the
remote call raises an exception, translate returns the notFound response
carrying an error field that holds exactly the exception's description
(non-empty whenever that description is).  translate is a total function
of the oracle outcome, so no exception propagates out of the handler. -/
theorem C3_error_notFound (p : Payload) (exc : String)
    (hcode : pyStrip (codeOf p) ≠ "") :
    translate p (Except.error exc) =
      [("notFound", JVal.bool true), ("error", JVal.str exc)] := by
  unfold translate translateT
  simp [hcode]

/-- C3 witness: a concrete remote failure. -/
theorem C3_witness :
    translate [("code", "A")] (Except.error "boom") =
      [("notFound", JVal.bool true), ("error", JVal.str "boom")] :=
  C3_error_notFound [("code", "A")] "boom" (by decide)

/-- C4 counterexample: when the assistant conversation has no messages,
run_assistant returns the empty string, and translate then returns it as
a Found reply: the empty string does not contain the fallback phrase, so
the result is the reply response with an empty reply, not notFound. -/
theorem C4_counterexample :
    run_assistant [] = "" ∧
    translate [("code", "A")] (Except.ok (run_assistant [])) =
      [("reply", JVal.str "")] ∧
    (translate [("code", "A")]
        (Except.ok (run_assistant []))).lookup "notFound" = none := by
  refine ⟨by decide, by decide, by decide⟩

/-- C4 (amended): for every payload with a non-empty stripped code whose
remote lookup succeeds with an empty reply (the assistant conversation
contains no messages), translate returns the Found response with an empty
reply string; this variant does not classify empty replies as NotFound
(the empty-reply clause belongs to the second variant's heuristic). -/
theorem C4_empty_reply_found (p : Payload)
    (hcode : pyStrip (codeOf p) ≠ "") :
    translate p (Except.ok (run_assistant [])) =
      [("reply", JVal.str "")] := by
  unfold translate translateT run_assistant
  simp [hcode]
  decide

/-- C4 witness: a concrete empty-conversation lookup. -/
theorem C4_witness :
    translate [("code", "A")] (Except.ok (run_assistant [])) =
      [("reply", JVal.str "")] :=
  C4_empty_reply_found [("code", "A")] (by decide)

/-- C5: for every payload with a non-empty stripped code whose remote
reply is non-empty, at least 40 characters long, and does not contain the
fallback phrase, translate returns the reply verbatim as the Found
response. -/
theorem C5_found_verbatim (p : Payload) (reply : String)
    (hcode : pyStrip (codeOf p) ≠ "") (_hne : reply ≠ "")
    (_hlen : 40 ≤ reply.length)
    (hfb : strContains reply fallback_phrase = false) :
    translate p (Except.ok reply) = [("reply", JVal.str reply)] := by
  unfold translate translateT
  simp [hcode, hfb]

/-- C5 witness: a concrete long reply without the fallback phrase. -/
theorem C5_witness :
    translate [("code", "25B")]
        (Except.ok
          "25B Information Technology Specialist maps to network support roles") =
      [("reply",
        JVal.str
          "25B Information Technology Specialist maps to network support roles")] :=
  C5_found_verbatim [("code", "25B")]
    "25B Information Technology Specialist maps to network support roles"
    (by decide) (by decide) (by decide) (by decide)

/-- C6 counterexample: the message content submitted to the remote service
is the stripped code only; it is not upper-cased, so a lower-case input
is submitted in lower case, not as its case-normalized form. -/
theorem C6_counterexample :
    submittedMessage [("code", " 25b ")] = some "25b" ∧
    pyUpper (pyStrip " 25b ") = "25B" ∧
    ("25b" : String) ≠ "25B" := by
  refine ⟨by decide, by decide, by decide⟩

/-- C6 (amended): for every payload with a non-empty stripped code, the
code string submitted as the message content to the remote assistant
service is the input code trimmed; it is not case-normalized in this
(POST) variant — upper-casing exists only in the second (GET) variant. -/
theorem C6_submitted_trimmed (p : Payload)
    (hcode : pyStrip (codeOf p) ≠ "") :
    submittedMessage p = some (pyStrip (codeOf p)) := by
  unfold submittedMessage
  simp [hcode]

/-- C6 witness: a concrete lower-case code padded with a space and a file
separator U+001C, both removed by str.strip(). -/
theorem C6_witness :
    submittedMessage [("code", "\x1c 25b ")] =
      some (pyStrip (codeOf [("code", "\x1c 25b ")])) :=
  C6_submitted_trimmed [("code", "\x1c 25b ")] (by decide)

/-- C7 counterexample: a request body that is not valid JSON is rejected
by the framework with status 400 before the handler body runs
(get_json with force=True raises BadRequest), so a non-200 status IS
reachable; the claim's "including malformed or non-JSON request bodies"
fails. -/
theorem C7_counterexample :
    handlePost none (Except.ok "anything") = HttpOutcome.clientError 400 ∧
    (400 : Nat) ≠ 200 := by
  refine ⟨by decide, by decide⟩

/-- C7 (amended): for every request whose body parses as a JSON object,
the exchange produces an HTTP 200 response carrying the handler's JSON
body, for every remote outcome — remote failures degrade to a 200
notFound response; malformed bodies are rejected by the framework with
status 400. -/
theorem C7_parsed_body_ok (p : Payload) (o : Except String String) :
    handlePost (some p) o = HttpOutcome.ok (translate p o) := rfl

/-- C8 counterexample: the first variant (the source under src/) has no
length threshold: a successful 2-character reply without the fallback
phrase is returned as a Found reply, not classified notFound. -/
theorem C8_counterexample :
    (pyStrip "hi").length < 40 ∧
    translate [("code", "A")] (Except.ok "hi") =
      [("reply", JVal.str "hi")] := by
  refine ⟨by decide, by decide⟩

/-- C8 (amended): the length-threshold clause belongs to the second
variant only.  In the second variant's classification heuristic (modelled
from the spec, its source being absent from src/), every reply whose
trimmed length is below 40 characters is classified NotFound; the first
variant's translate applies no length threshold. -/
theorem C8_variant2_threshold (reply : String)
    (h : (pyStrip reply).length < 40) :
    classifyVariant2 reply = [("notFound", JVal.bool true)] := by
  unfold classifyVariant2
  by_cases h0 : reply = ""
  · simp [h0]
  · by_cases h1 : strContains reply.toLower "no match"
    · simp [h0, h1]
    · simp [h0, h1, h]

/-- C8 witness: a concrete short reply under the second variant. -/
theorem C8_witness :
    (pyStrip "hi").length < 40 ∧
    classifyVariant2 "hi" = [("notFound", JVal.bool true)] :=
  ⟨by decide, C8_variant2_threshold "hi" (by decide)⟩

/-- C9: the handler reads only the code key of the payload, so two
payloads that agree on code produce identical responses and identical
remote-call behaviour under the same oracle, whatever their branch field
or other extra keys. -/
theorem C9_only_code_matters (p1 p2 : Payload) (o : Except String String)
    (h : p1.lookup "code" = p2.lookup "code") :
    translateT p1 o = translateT p2 o := by
  unfold translateT codeOf
  rw [h]

/-- C9 witness: same code, one payload with branch, one with a stray key. -/
theorem C9_witness :
    translateT [("code", "25B"), ("branch", "Army")] (Except.ok "r") =
      translateT [("code", "25B"), ("extra", "x")] (Except.ok "r") :=
  C9_only_code_matters [("code", "25B"), ("branch", "Army")]
    [("code", "25B"), ("extra", "x")] (Except.ok "r") (by decide)

/-- C10: every response of translate carries exactly one of the keys
reply and notFound; a present notFound key holds true; an error key never
accompanies reply and only appears alongside notFound; and an error key
can only come from the remote-failure path: on every other path (empty
code, or an oracle that returns a reply) the response has no error key. -/
theorem C10_response_shape (p : Payload) (o : Except String String) :
    (hasKey (translate p o) "reply" =
      !hasKey (translate p o) "notFound") ∧
    ((translate p o).lookup "notFound" = none ∨
      (translate p o).lookup "notFound" = some (JVal.bool true)) ∧
    (hasKey (translate p o) "error" &&
      hasKey (translate p o) "reply") = false ∧
    (hasKey (translate p o) "error" &&
      !hasKey (translate p o) "notFound") = false ∧
    ((translate p o).lookup "error" = none ∨
      ∃ exc, o = Except.error exc ∧ pyStrip (codeOf p) ≠ "") := by
  unfold translate translateT hasKey
  rcases o with exc | reply
  · by_cases h : pyStrip (codeOf p) = ""
    · simp [h, List.lookup]
    · refine ⟨?_, ?_, ?_, ?_, Or.inr ⟨exc, rfl, h⟩⟩ <;>
        simp [h, List.lookup]
  · by_cases h : pyStrip (codeOf p) = "" <;>
      by_cases hfb : strContains reply fallback_phrase <;>
        simp [h, hfb, List.lookup]

end AiWrapper
